import Mathlib

/-!
Shallow embedding of the event-sourced aggregate reduction engine of this
repository, covering three source components:

* `AggregateModel` embeds `packages/experimental/src/Aggregate.ts`: the
  `Aggregate` snapshot, the `AggregateBuilder`, the curried `apply`
  operation produced by `build`, and the type-level compatibility gate
  `EnsureStateAndHandlersAreCompatible`.
* `EHB` embeds the `EventSourcing/EventHandlersBuilder` module together with
  the `EventSourcing/EventHandlers` module (`add`, `combine`, `build`,
  `toReducer`, `makeEventReducer`).
* `ARB` embeds the `AggregateReducerBuilder` module (`handleEvent`,
  `withInitialState`, `build` and its missing-initial-state error).

TypeScript objects keyed by event-tag strings are embedded as functions
`String → Option handler` (lookup by key is all the source ever does with
them); JavaScript exceptions are embedded as `Except` error results; the
`number` version counter is embedded as `Nat` (the spec fixes it to an
integer that is at least 0).
-/

/-- Runtime event value flowing through the system: the source builds it as
an object with an underscore-tag field and a payload field
(`{ _tag: tag, payload }` in `Aggregate.ts` and in the test helpers). -/
structure TaggedPayload (P : Type) where
  tag : String
  payload : P
  deriving DecidableEq, Repr

namespace AggregateModel

/-- Aggregate snapshot from `Aggregate.ts`: id, optional state (absent before
the first event is folded), version counter, and the ordered list of
uncommitted changes. -/
structure Aggregate (S P : Type) where
  id : String
  state : Option S
  version : Nat
  uncommittedChanges : List (TaggedPayload P)
  deriving DecidableEq, Repr

/-- Aggregate builder from `Aggregate.ts`: a zero-argument initial-state
supplier paired with the handler registry. The registry is the embedding of
the `handlers` object: lookup of a tag yields the registered transition
function `(state, taggedPayload) => state`, or nothing when the tag has no
entry. -/
structure AggregateBuilder (S P : Type) where
  getInitialState : Unit → S
  handlers : String → Option (S → TaggedPayload P → S)

/-- Runtime failures of `apply`. `handlerNotAFunction` embeds the JavaScript
`TypeError` raised when `builder.handlers[tag]` is `undefined` and is then
invoked as a function — the only failure the source can actually produce.
The constructors `unknownEventTag` and `configurationError` are modelled
from the spec: the spec's error taxonomy names `UnknownEventTag` (strict
missing-handler policy) and `ConfigurationError` (build-time type mismatch),
but no code under `src/` ever constructs either; they are included so that
their absence from `apply`'s behaviour can be stated. -/
inductive ApplyError where
  | handlerNotAFunction (tag : String)
  | unknownEventTag (tag : String)
  | configurationError
  deriving DecidableEq, Repr

variable {S P : Type}

/-- Embedding of the `apply` operation returned by `build` in `Aggregate.ts`
(lines 138-159): look up the handler for the tag, resolve the current state
via `Option.getOrElse` of the initial-state supplier, invoke the handler on
`(state, taggedPayload)`, and return a fresh snapshot with the same id, the
new state wrapped in `some`, the version incremented by one, and the tagged
payload appended to the uncommitted changes. When the registry has no entry
for the tag the source reads `undefined` and calls it, raising a
`TypeError`; that is the `handlerNotAFunction` error branch. -/
def apply (b : AggregateBuilder S P) (tag : String) (payload : P)
    (a : Aggregate S P) : Except ApplyError (Aggregate S P) :=
  match b.handlers tag with
  | some handler =>
      let state := a.state.getD (b.getInitialState ())
      let taggedPayload : TaggedPayload P := { tag := tag, payload := payload }
      let newState := handler state taggedPayload
      Except.ok
        { id := a.id
          state := some newState
          version := a.version + 1
          uncommittedChanges := a.uncommittedChanges ++ [taggedPayload] }
  | none => Except.error (ApplyError.handlerNotAFunction tag)

/-- Small universe of TypeScript state types, used to embed the type-level
compatibility gate of `Aggregate.ts`. -/
inductive Ty where
  | number
  | string
  | boolean
  deriving DecidableEq, Repr

/-- Assignability between two state types: for the base types of the model
universe, TypeScript's bracketed `extends` test holds exactly on equal
types. -/
def tyExtends (a b : Ty) : Bool := a == b

/-- Message of the conditional type's failure branch in `Aggregate.ts`
(line 118), without the interpolated state-type name. -/
def compatibilityErrorMessage : String :=
  "The state is not compatible with the handlers"

/-- Embedding of the conditional type `EnsureStateAndHandlersAreCompatible`
(`Aggregate.ts` lines 116-118): if the builder's state type is assignable to
the state type consumed by the handlers, the builder is accepted and `build`
may be invoked; otherwise the gate resolves to the error-message string and
the call to `build` is rejected before the program runs, hence before any
`apply`. -/
def ensureStateAndHandlersAreCompatible (stateTy handlersStateTy : Ty) :
    Except String Unit :=
  if tyExtends stateTy handlersStateTy then Except.ok ()
  else Except.error compatibilityErrorMessage

end AggregateModel

namespace EHB

variable {S P : Type}

/-- Handler registry from the `EventSourcing/EventHandlers` module: a map
from event tag to the stored transition function on `(state, taggedPayload)`,
embedded as lookup by tag. -/
def EventHandlers (S P : Type) : Type :=
  String → Option (S → TaggedPayload P → S)

/-- Event definition as consumed by the builder: `add` reads only the `tag`
field; the `primaryKey` function is carried but never invoked by the
reducer. The payload schema is opaque to the reducer and is represented by
the payload type parameter. -/
structure EventDef (P : Type) where
  tag : String
  primaryKey : P → String

/-- Builder from the `EventSourcing/EventHandlersBuilder` module: a wrapper
around its accumulated handler registry. -/
structure EventHandlersBuilder (S P : Type) where
  handlers : EventHandlers S P

/-- Embedding of `empty`: a builder whose registry has no entries. -/
def empty : EventHandlersBuilder S P :=
  { handlers := fun _ => none }

/-- Embedding of `fromHandlers`: wraps an existing registry unchanged. -/
def fromHandlers (handlers : EventHandlers S P) : EventHandlersBuilder S P :=
  { handlers := handlers }

/-- Embedding of `add` (part_002 lines 128-141): the new registry is the
object spread of the old registry with one entry keyed by `event.tag`, so a
lookup of that tag now yields the wrapper
`(state, taggedPayload) => handler(state, taggedPayload.payload)` and every
other tag resolves as before. A later entry for the same key overwrites an
earlier one, exactly as the object spread does. -/
def add (event : EventDef P) (handler : S → P → S)
    (self : EventHandlersBuilder S P) : EventHandlersBuilder S P :=
  { handlers := fun t =>
      if t = event.tag then
        some (fun state taggedPayload => handler state taggedPayload.payload)
      else self.handlers t }

/-- Embedding of `combine` (part_002 lines 166-178): the registry is the
object spread of the receiver's registry followed by the argument's, so any
tag present in the argument builder resolves to the argument's handler and
every other tag resolves as in the receiver. -/
def combine (that : EventHandlersBuilder S P)
    (self : EventHandlersBuilder S P) : EventHandlersBuilder S P :=
  { handlers := fun t =>
      match that.handlers t with
      | some h => some h
      | none => self.handlers t }

/-- Embedding of `build`: returns the builder's registry unchanged. -/
def build (self : EventHandlersBuilder S P) : EventHandlers S P :=
  self.handlers

/-- Runtime failure of the event reducer: `makeEventReducer` reads
`handlers[tag]` without an existence check and invokes it, so an
unregistered tag raises the JavaScript `TypeError` embedded here. -/
inductive RunError where
  | handlerNotAFunction (tag : String)
  deriving DecidableEq, Repr

/-- Embedding of `makeEventReducer` from the `EventSourcing/EventHandlers`
module (part_002 lines 379-388): dispatch is exact string match on the
event's tag; the stored handler is invoked on `(state, event)`. -/
def makeEventReducer (handlers : EventHandlers S P) :
    S → TaggedPayload P → Except RunError S :=
  fun state event =>
    match handlers event.tag with
    | some handler => Except.ok (handler state event)
    | none => Except.error (RunError.handlerNotAFunction event.tag)

/-- Embedding of `toReducer` (part_002 lines 197-199): literally
`makeEventReducer(self.handlers)`. -/
def toReducer (self : EventHandlersBuilder S P) :
    S → TaggedPayload P → Except RunError S :=
  makeEventReducer self.handlers

end EHB

namespace ARB

variable {S P : Type}

/-- Runtime event instance as consumed by the `AggregateReducerBuilder`
reducer: a plain tag field plus a payload (the symbol-keyed type id carried
by real instances is identity information with no reduction behaviour). -/
structure EventInstance (P : Type) where
  tag : String
  payload : P
  deriving DecidableEq, Repr

/-- One registered handler configuration (`EventHandlerConfig`): the tag of
its event definition (the only field of the definition the builder ever
reads) and the handler on `(state, eventInstance)`. -/
structure EventHandlerConfig (S P : Type) where
  tag : String
  handler : S → EventInstance P → S

/-- Builder state of `AggregateReducerBuilder`: the ordered list of
registered handler configurations and the optional initial state (`none`
embeds the `undefined` of a builder on which `withInitialState` was never
called). -/
structure AggregateReducerBuilder (S P : Type) where
  internalHandlers : List (EventHandlerConfig S P)
  initialState : Option S

/-- Embedding of `empty`: no handlers, no initial state. -/
def empty : AggregateReducerBuilder S P :=
  { internalHandlers := [], initialState := none }

/-- Embedding of `handleEvent`: appends one configuration to the handler
list and keeps the initial state, returning a new builder value. -/
def handleEvent (tag : String) (handler : S → EventInstance P → S)
    (self : AggregateReducerBuilder S P) : AggregateReducerBuilder S P :=
  { internalHandlers := self.internalHandlers ++ [{ tag := tag, handler := handler }]
    initialState := self.initialState }

/-- Embedding of `withInitialState`: keeps the handler list and replaces the
initial state, returning a new builder value. -/
def withInitialState (initialState : S)
    (self : AggregateReducerBuilder S P) : AggregateReducerBuilder S P :=
  { internalHandlers := self.internalHandlers, initialState := some initialState }

/-- Lookup in the handler map that `build` constructs: the source iterates
`internalHandlers` in order and `Map.set`s each entry, so a later
configuration for the same tag overwrites an earlier one and lookup returns
the last matching handler. -/
def lookupHandler (configs : List (EventHandlerConfig S P)) (t : String) :
    Option (S → EventInstance P → S) :=
  configs.foldl (fun acc c => if c.tag = t then some c.handler else acc) none

/-- JavaScript `Error` thrown by `build`, carrying its message. -/
inductive JsError where
  | error (message : String)
  deriving DecidableEq, Repr

/-- Exact message of the error `build` throws when no initial state was
provided (part_000 line 133, part_001 line 108). -/
def initialStateMessage : String :=
  "Initial state must be provided before building the reducer. Call withInitialState()."

/-- Embedding of `AggregateReducerBuilder.build` (part_001 lines 106-143):
throws when `initialState` is `undefined`; otherwise returns the reducer
that resolves an `undefined` current state to the initial state, dispatches
on the event's tag in the handler map, and returns the resolved state
unchanged when no handler matches. -/
def build (self : AggregateReducerBuilder S P) :
    Except JsError (Option S → EventInstance P → S) :=
  match self.initialState with
  | none => Except.error (JsError.error initialStateMessage)
  | some initState =>
      Except.ok (fun currentState eventInstance =>
        let resolvedState := currentState.getD initState
        match lookupHandler self.internalHandlers eventInstance.tag with
        | some handler => handler resolvedState eventInstance
        | none => resolvedState)

end ARB

section ConcreteInstances

/-- Concrete counter builder mirroring the Aggregate.ts test: one handler
registered under the tag used by the tests, initial state zero. -/
def counterBuilder : AggregateModel.AggregateBuilder Nat Nat :=
  { getInitialState := fun _ => 0
    handlers := fun t =>
      if t = "increment" then some (fun s tp => s + tp.payload) else none }

/-- Fresh concrete aggregate: version zero, no state, no uncommitted
changes. -/
def freshAggregate : AggregateModel.Aggregate Nat Nat :=
  { id := "test-aggregate", state := none, version := 0, uncommittedChanges := [] }

/-- Snapshot that applying an increment of two to the fresh aggregate
produces. -/
def incrementedAggregate : AggregateModel.Aggregate Nat Nat :=
  { id := "test-aggregate"
    state := some 2
    version := 1
    uncommittedChanges := [{ tag := "increment", payload := 2 }] }

end ConcreteInstances

/-- C1: for every aggregate `a` and every event `(tag, payload)`, the
aggregate returned by `apply tag payload a` has version `a.version + 1`.
Stated for every run in which `apply` returns an aggregate (the typed API
only admits tags of the registry, so every well-typed call returns one). -/
theorem apply_increments_version {S P : Type}
    (b : AggregateModel.AggregateBuilder S P) (tag : String) (payload : P)
    (a a' : AggregateModel.Aggregate S P)
    (h : AggregateModel.apply b tag payload a = Except.ok a') :
    a'.version = a.version + 1 := by
  unfold AggregateModel.apply at h
  cases hreg : b.handlers tag with
  | none => rw [hreg] at h; cases h
  | some f => rw [hreg] at h; cases h; rfl

/-- Witness for C1 at a concrete input: the increment-by-two event applied
to the fresh aggregate yields a snapshot, and its version is the old
version plus one. -/
theorem apply_increments_version_witness :
    AggregateModel.apply counterBuilder "increment" 2 freshAggregate
        = Except.ok incrementedAggregate
    ∧ incrementedAggregate.version = freshAggregate.version + 1 :=
  ⟨rfl,
   apply_increments_version counterBuilder "increment" 2 freshAggregate
     incrementedAggregate rfl⟩

/-- C2: the uncommitted changes of the aggregate returned by `apply` are the
input's uncommitted changes with exactly the tagged payload of the applied
event appended at the end, all prior elements and their order preserved. -/
theorem apply_appends_uncommitted_change {S P : Type}
    (b : AggregateModel.AggregateBuilder S P) (tag : String) (payload : P)
    (a a' : AggregateModel.Aggregate S P)
    (h : AggregateModel.apply b tag payload a = Except.ok a') :
    a'.uncommittedChanges
      = a.uncommittedChanges ++ [{ tag := tag, payload := payload }] := by
  unfold AggregateModel.apply at h
  cases hreg : b.handlers tag with
  | none => rw [hreg] at h; cases h
  | some f => rw [hreg] at h; cases h; rfl

/-- Witness for C2 at a concrete input: applying the increment event to the
incremented aggregate appends exactly one tagged payload at the end. -/
theorem apply_appends_uncommitted_change_witness :
    (∃ a', AggregateModel.apply counterBuilder "increment" 3 incrementedAggregate
        = Except.ok a'
      ∧ a'.uncommittedChanges
          = incrementedAggregate.uncommittedChanges
              ++ [{ tag := "increment", payload := 3 }]) :=
  ⟨{ id := "test-aggregate"
     state := some 5
     version := 2
     uncommittedChanges :=
       [{ tag := "increment", payload := 2 }, { tag := "increment", payload := 3 }] },
   rfl,
   apply_appends_uncommitted_change counterBuilder "increment" 3
     incrementedAggregate _ rfl⟩

/-- C3: `apply` does not mutate its input and keeps the identity field: the
embedding of `apply` is a total pure function of its arguments (the source
constructs a fresh object and never assigns into the input aggregate, which
is what makes this pure-function embedding possible), so the input snapshot
is untouched by construction, and the aggregate it returns carries the same
`id` as the input. -/
theorem apply_pure_preserves_id {S P : Type}
    (b : AggregateModel.AggregateBuilder S P) (tag : String) (payload : P)
    (a a' : AggregateModel.Aggregate S P)
    (h : AggregateModel.apply b tag payload a = Except.ok a') :
    a'.id = a.id := by
  unfold AggregateModel.apply at h
  cases hreg : b.handlers tag with
  | none => rw [hreg] at h; cases h
  | some f => rw [hreg] at h; cases h; rfl

/-- Witness for C3 at a concrete input: the snapshot returned for the fresh
aggregate keeps the id "test-aggregate". -/
theorem apply_pure_preserves_id_witness :
    AggregateModel.apply counterBuilder "increment" 2 freshAggregate
        = Except.ok incrementedAggregate
    ∧ incrementedAggregate.id = freshAggregate.id :=
  ⟨rfl,
   apply_pure_preserves_id counterBuilder "increment" 2 freshAggregate
     incrementedAggregate rfl⟩

/-- C4: state resolution of `apply` for a registered handler `hf`: when the
input's state is present with value `s`, the returned state is
`some (hf s taggedPayload)`; when the input's state is absent, the builder's
initial-state supplier provides the seed and the returned state is
`some (hf (getInitialState ()) taggedPayload)`. -/
theorem apply_state_resolution {S P : Type}
    (b : AggregateModel.AggregateBuilder S P) (tag : String) (payload : P)
    (a : AggregateModel.Aggregate S P) (hf : S → TaggedPayload P → S)
    (hreg : b.handlers tag = some hf) :
    (∀ s, a.state = some s →
      ∃ a', AggregateModel.apply b tag payload a = Except.ok a'
        ∧ a'.state = some (hf s { tag := tag, payload := payload }))
    ∧ (a.state = none →
      ∃ a', AggregateModel.apply b tag payload a = Except.ok a'
        ∧ a'.state
            = some (hf (b.getInitialState ()) { tag := tag, payload := payload })) := by
  have happly : AggregateModel.apply b tag payload a
      = Except.ok
          { id := a.id
            state := some (hf (a.state.getD (b.getInitialState ()))
              { tag := tag, payload := payload })
            version := a.version + 1
            uncommittedChanges :=
              a.uncommittedChanges ++ [{ tag := tag, payload := payload }] } := by
    unfold AggregateModel.apply
    rw [hreg]
  constructor
  · intro s hs
    exact ⟨_, happly, by simp [hs]⟩
  · intro hs
    exact ⟨_, happly, by simp [hs]⟩

/-- Witness for C4 at concrete inputs: the registered increment handler is
found, the absent-state branch seeds from the initial-state supplier, and
the present-state branch folds from the stored state. -/
theorem apply_state_resolution_witness :
    counterBuilder.handlers "increment" = some (fun s tp => s + tp.payload)
    ∧ (∃ a', AggregateModel.apply counterBuilder "increment" 2 freshAggregate
          = Except.ok a' ∧ a'.state = some 2)
    ∧ (∃ a', AggregateModel.apply counterBuilder "increment" 3 incrementedAggregate
          = Except.ok a' ∧ a'.state = some 5) :=
  ⟨rfl,
   (apply_state_resolution counterBuilder "increment" 2 freshAggregate
       (fun s tp => s + tp.payload) rfl).2 rfl,
   (apply_state_resolution counterBuilder "increment" 3 incrementedAggregate
       (fun s tp => s + tp.payload) rfl).1 2 rfl⟩

section BuilderInstances

/-- Concrete event definition used by the builder witnesses. -/
def eventA : EHB.EventDef Nat :=
  { tag := "A", primaryKey := fun _ => "k" }

/-- Concrete event definition with a distinct tag. -/
def eventB : EHB.EventDef Nat :=
  { tag := "B", primaryKey := fun _ => "k" }

/-- Builder registering an additive handler for tag "A". -/
def builderPlus : EHB.EventHandlersBuilder Nat Nat :=
  EHB.add eventA (fun s p => s + p) EHB.empty

/-- Builder registering a multiplicative handler for tag "A". -/
def builderTimes : EHB.EventHandlersBuilder Nat Nat :=
  EHB.add eventA (fun s p => s * p) EHB.empty

end BuilderInstances

/-- C5: registering two handlers for the same event definition via `add`
leaves only the second one in the built registry (last write wins): looking
up the event's tag yields the wrapper of the second handler; and for any tag
distinct from the added event's tag, `add` leaves the previously registered
entry unchanged. -/
theorem add_last_write_wins {S P : Type}
    (b b2 : EHB.EventHandlersBuilder S P) (e : EHB.EventDef P)
    (h1 h2 h : S → P → S) (t : String) (ht : t ≠ e.tag) :
    EHB.build (EHB.add e h2 (EHB.add e h1 b)) e.tag
      = some (fun state taggedPayload => h2 state taggedPayload.payload)
    ∧ EHB.build (EHB.add e h b2) t = EHB.build b2 t := by
  constructor
  · simp [EHB.build, EHB.add]
  · simp [EHB.build, EHB.add, ht]

/-- Witness for C5 at concrete inputs: adding the multiplicative handler
after the additive one under the same tag dispatches "A" to the
multiplicative handler, and the lookup of the distinct tag "B" is
untouched. -/
theorem add_last_write_wins_witness :
    ("B" ≠ eventA.tag)
    ∧ EHB.build (EHB.add eventA (fun s p => s * p)
          (EHB.add eventA (fun s p => s + p) EHB.empty)) eventA.tag
        = some (fun state taggedPayload => state * taggedPayload.payload)
    ∧ EHB.build (EHB.add eventA (fun s p => s + p) builderTimes) "B"
        = EHB.build builderTimes "B" := by
  refine ⟨by decide, ?_⟩
  exact add_last_write_wins EHB.empty builderTimes eventA
    (fun s p => s + p) (fun s p => s * p) (fun s p => s + p) "B" (by decide)

/-- C6: per-tag semantics of `combine`: the registry of `combine b2 b1`
has an entry for a tag exactly when one of the two builders has one; on a
tag registered in `b2` the combined registry holds `b2`'s handler (the
argument overwrites the receiver); on a tag not registered in `b2` the
combined registry agrees with `b1`. -/
theorem combine_merges_registries {S P : Type}
    (b1 b2 : EHB.EventHandlersBuilder S P) (t : String) :
    ((∃ h, EHB.build (EHB.combine b2 b1) t = some h)
        ↔ ((∃ h, EHB.build b1 t = some h) ∨ (∃ h, EHB.build b2 t = some h)))
    ∧ (∀ h2, EHB.build b2 t = some h2
        → EHB.build (EHB.combine b2 b1) t = some h2)
    ∧ (EHB.build b2 t = none
        → EHB.build (EHB.combine b2 b1) t = EHB.build b1 t) := by
  cases hb2 : b2.handlers t with
  | none =>
      refine ⟨?_, ?_, ?_⟩
      · simp [EHB.build, EHB.combine, hb2]
      · intro h2 hh2
        rw [EHB.build] at hh2
        rw [hb2] at hh2
        cases hh2
      · intro _
        simp [EHB.build, EHB.combine, hb2]
  | some h =>
      refine ⟨?_, ?_, ?_⟩
      · simp [EHB.build, EHB.combine, hb2]
      · intro h2 hh2
        rw [EHB.build] at hh2
        rw [hb2] at hh2
        cases hh2
        simp [EHB.build, EHB.combine, hb2]
      · intro hnone
        rw [EHB.build] at hnone
        rw [hb2] at hnone
        cases hnone

/-- Witness for C6 at concrete inputs: combining the multiplicative builder
into the additive one dispatches the colliding tag "A" to the argument
builder's multiplicative handler, and on the tag "B" absent from the
argument builder the combination agrees with the receiver. -/
theorem combine_merges_registries_witness :
    EHB.build (EHB.combine builderTimes builderPlus) "A"
        = some (fun state taggedPayload => state * taggedPayload.payload)
    ∧ EHB.build (EHB.combine builderTimes builderPlus) "B"
        = EHB.build builderPlus "B" :=
  ⟨(combine_merges_registries builderPlus builderTimes "A").2.1
      (fun state taggedPayload => state * taggedPayload.payload) rfl,
   (combine_merges_registries builderPlus builderTimes "B").2.2 rfl⟩

/-- C7: the reducer obtained via `toReducer` agrees with the reducer
obtained by building the registry and passing it to `makeEventReducer`, on
every state and event instance; consequently folding any sequence of events
from any initial state yields identical results along both paths. -/
theorem toReducer_agrees_with_built_reducer {S P : Type}
    (b : EHB.EventHandlersBuilder S P) :
    (∀ (s : S) (e : TaggedPayload P),
        EHB.toReducer b s e = EHB.makeEventReducer (EHB.build b) s e)
    ∧ (∀ (s0 : S) (events : List (TaggedPayload P)),
        events.foldlM (fun s e => EHB.toReducer b s e) s0
          = events.foldlM (fun s e => EHB.makeEventReducer (EHB.build b) s e) s0) :=
  ⟨fun _ _ => rfl, fun _ _ => rfl⟩

/-- C8: the compatibility gate: when the state type produced by the
initial-state supplier is not assignable to the state type the handlers
consume, the gate resolves to the configuration-error message, so `build`
is rejected at build time before any `apply` is attempted; and `apply`
itself never fails with a configuration error on any input (the only
runtime error it can surface is the undefined-handler one). -/
theorem build_compatibility_gate {S P : Type}
    (sTy hTy : AggregateModel.Ty)
    (hne : AggregateModel.tyExtends sTy hTy = false)
    (b : AggregateModel.AggregateBuilder S P) (tag : String) (payload : P)
    (a : AggregateModel.Aggregate S P) :
    AggregateModel.ensureStateAndHandlersAreCompatible sTy hTy
        = Except.error AggregateModel.compatibilityErrorMessage
    ∧ AggregateModel.apply b tag payload a
        ≠ Except.error AggregateModel.ApplyError.configurationError := by
  constructor
  · simp [AggregateModel.ensureStateAndHandlersAreCompatible, hne]
  · unfold AggregateModel.apply
    cases b.handlers tag <;> simp

/-- Witness for C8 at concrete inputs: a number-state supplier against
string-state handlers is rejected by the gate, and a concrete `apply` run
does not produce a configuration error. -/
theorem build_compatibility_gate_witness :
    AggregateModel.tyExtends AggregateModel.Ty.number AggregateModel.Ty.string
        = false
    ∧ AggregateModel.ensureStateAndHandlersAreCompatible
          AggregateModel.Ty.number AggregateModel.Ty.string
        = Except.error AggregateModel.compatibilityErrorMessage
    ∧ AggregateModel.apply counterBuilder "increment" 2 freshAggregate
        ≠ Except.error AggregateModel.ApplyError.configurationError :=
  ⟨by decide,
   (build_compatibility_gate AggregateModel.Ty.number AggregateModel.Ty.string
      (by decide) counterBuilder "increment" 2 freshAggregate).1,
   (build_compatibility_gate AggregateModel.Ty.number AggregateModel.Ty.string
      (by decide) counterBuilder "increment" 2 freshAggregate).2⟩

/-- C9 counterexample: at the concrete unregistered tag "mystery", `apply`
neither returns an aggregate (as Policy A would require: state passed
through with version still incremented and the event appended) nor fails
with `UnknownEventTag` (as Policy B would require); so the claimed
disjunction of the two policies is false on the code. The code instead
invokes the undefined registry entry, a `TypeError`. -/
theorem missing_handler_policy_counterexample :
    ¬ ((∃ a', AggregateModel.apply counterBuilder "mystery" 7 freshAggregate
          = Except.ok a')
       ∨ AggregateModel.apply counterBuilder "mystery" 7 freshAggregate
          = Except.error (AggregateModel.ApplyError.unknownEventTag "mystery")) := by
  intro hclaim
  have hev : AggregateModel.apply counterBuilder "mystery" 7 freshAggregate
      = Except.error (AggregateModel.ApplyError.handlerNotAFunction "mystery") := rfl
  rcases hclaim with ⟨a', ha⟩ | hb
  · rw [hev] at ha
    cases ha
  · rw [hev] at hb
    simp at hb

/-- C9 amended: `apply` does follow one single behaviour for all
unregistered tags, but it is neither of the two policies the claim offers:
for every aggregate and every tag with no registered handler, `apply` fails
by invoking the undefined registry entry — the JavaScript `TypeError`
embedded as `handlerNotAFunction` — never with `UnknownEventTag` and never
returning an aggregate. -/
theorem apply_unregistered_tag_fails {S P : Type}
    (b : AggregateModel.AggregateBuilder S P) (tag : String) (payload : P)
    (a : AggregateModel.Aggregate S P)
    (hnone : b.handlers tag = none) :
    AggregateModel.apply b tag payload a
      = Except.error (AggregateModel.ApplyError.handlerNotAFunction tag) := by
  unfold AggregateModel.apply
  rw [hnone]

/-- Witness for the amended C9 at a concrete input: the tag "mystery" has
no entry in the counter builder versus the uniform undefined-handler
failure. -/
theorem apply_unregistered_tag_fails_witness :
    counterBuilder.handlers "mystery" = none
    ∧ AggregateModel.apply counterBuilder "mystery" 7 freshAggregate
        = Except.error (AggregateModel.ApplyError.handlerNotAFunction "mystery") :=
  ⟨rfl,
   apply_unregistered_tag_fails counterBuilder "mystery" 7 freshAggregate rfl⟩

/-- C10: building an `AggregateReducerBuilder` on which `withInitialState`
was never called (its initial state is still absent) does not return a
reducer: it throws the error whose message is exactly "Initial state must
be provided before building the reducer. Call withInitialState().". -/
theorem build_without_initial_state_throws {S P : Type}
    (self : ARB.AggregateReducerBuilder S P)
    (hnone : self.initialState = none) :
    ARB.build self = Except.error (ARB.JsError.error ARB.initialStateMessage) := by
  unfold ARB.build
  rw [hnone]

/-- Witness for C10 at a concrete input: the empty builder, even with a
handler registered, has no initial state and `build` throws. -/
theorem build_without_initial_state_throws_witness :
    (ARB.handleEvent "EventA" (fun s e => s + e.payload)
        (ARB.empty : ARB.AggregateReducerBuilder Nat Nat)).initialState = none
    ∧ ARB.build (ARB.handleEvent "EventA" (fun s e => s + e.payload)
          (ARB.empty : ARB.AggregateReducerBuilder Nat Nat))
        = Except.error (ARB.JsError.error ARB.initialStateMessage) :=
  ⟨rfl,
   build_without_initial_state_throws
     (ARB.handleEvent "EventA" (fun s e => s + e.payload) ARB.empty) rfl⟩
